import Mathlib

/-!
Verification of the architecture-diagram pipeline of the terraformcoder-ai
frontend: the Share-Link codec, the Mermaid text parser, the syntax
validator (`src/frontend/terraformcoder-frontend/src/services/api.js`,
class `MermaidChartService`) and the render-state behaviour of
`EnhancedArchitectureDiagram.jsx`.

JavaScript strings are modelled as lists of Unicode code points
(`JSStr := List Nat`).  `btoa` is modelled as a partial function that
fails (returns `none`) exactly when some code point exceeds 255, which is
the condition under which the browser `btoa` throws `InvalidCharacterError`.
`JSON.stringify` of the fixed configuration object built by
`createLiveEditorLink` is modelled by `stringifyConfig`, reproducing the
exact serialisation (property order, string escaping) of the source.
-/

set_option maxRecDepth 100000

namespace TFC

/-- A JavaScript string, as the list of its Unicode code points. -/
abbrev JSStr := List Nat

/-- Code points of a Lean string literal, used to transcribe the string
literals of the JavaScript source. -/
def jstr (s : String) : JSStr := s.data.map Char.toNat

/-! ### Generic string utilities -/

/-- `chopLead p s` removes the prefix `p` from `s`, failing when `s` does
not start with `p`. -/
def chopLead : JSStr → JSStr → Option JSStr
  | [], s => some s
  | _ :: _, [] => none
  | p :: ps, c :: cs => if p = c then chopLead ps cs else none

/-- `String.prototype.startsWith`: is `pat` a prefix of `s`? -/
def startsWithU : JSStr → JSStr → Bool
  | [], _ => true
  | _ :: _, [] => false
  | p :: ps, c :: cs => p == c && startsWithU ps cs

/-- `String.prototype.includes`: does `pat` occur as a contiguous
substring of `s` (including at the very end)? -/
def containsSub (pat : JSStr) : JSStr → Bool
  | [] => startsWithU pat []
  | c :: rest => startsWithU pat (c :: rest) || containsSub pat rest

/-- The JavaScript `\s` character class (white space used by `trim`). -/
def isSpaceChar (c : Nat) : Bool :=
  c == 9 || c == 10 || c == 11 || c == 12 || c == 13 || c == 32 ||
  c == 160 || c == 5760 || (decide (8192 ≤ c) && decide (c ≤ 8202)) ||
  c == 8232 || c == 8233 || c == 8239 || c == 8287 || c == 12288 || c == 65279

/-- `String.prototype.trim`: strip white space from both ends. -/
def trimU (s : JSStr) : JSStr :=
  ((s.dropWhile isSpaceChar).reverse.dropWhile isSpaceChar).reverse

/-- `String.prototype.split('\n')` (code point 10). -/
def splitOn10 : JSStr → List JSStr
  | [] => [[]]
  | c :: rest =>
    if c = 10 then [] :: splitOn10 rest
    else
      match splitOn10 rest with
      | [] => [[c]]
      | l :: ls => (c :: l) :: ls

/-- ASCII lowercasing, modelling `String.prototype.toLowerCase` on the
ASCII range (the only range the validator's keywords use). -/
def toLowerU (s : JSStr) : JSStr :=
  s.map fun c => if 65 ≤ c ∧ c ≤ 90 then c + 32 else c

/-! ### Base64 (`btoa`) -/

/-- The base64 alphabet: the character for a 6-bit value. -/
def btoaChar (n : Nat) : Nat :=
  if n < 26 then 65 + n
  else if n < 52 then 97 + (n - 26)
  else if n < 62 then 48 + (n - 52)
  else if n = 62 then 43
  else 47

/-- Inverse of the base64 alphabet. -/
def b64val (c : Nat) : Nat :=
  if 65 ≤ c ∧ c ≤ 90 then c - 65
  else if 97 ≤ c ∧ c ≤ 122 then c - 97 + 26
  else if 48 ≤ c ∧ c ≤ 57 then c - 48 + 52
  else if c = 43 then 62
  else 63

/-- Base64 encoding of a byte sequence, with `=` (61) padding, exactly as
`btoa` produces it. -/
def b64encode : List Nat → JSStr
  | [] => []
  | [a] => [btoaChar (a / 4), btoaChar (a % 4 * 16), 61, 61]
  | [a, b] => [btoaChar (a / 4), btoaChar (a % 4 * 16 + b / 16), btoaChar (b % 16 * 4), 61]
  | a :: b :: c :: rest =>
    btoaChar (a / 4) :: btoaChar (a % 4 * 16 + b / 16) ::
    btoaChar (b % 16 * 4 + c / 64) :: btoaChar (c % 64) :: b64encode rest

/-- The three bytes of one unpadded base64 quadruple. -/
def b64chunk (c1 c2 c3 c4 : Nat) : List Nat :=
  [b64val c1 * 4 + b64val c2 / 16,
   b64val c2 % 16 * 16 + b64val c3 / 4,
   b64val c3 % 4 * 64 + b64val c4]

/-- Base64 decoding (`atob`), the inverse of `b64encode`. -/
def b64decode : JSStr → Option (List Nat)
  | [] => some []
  | c1 :: c2 :: c3 :: c4 :: rest =>
    if rest = [] then
      if c3 = 61 then some [b64val c1 * 4 + b64val c2 / 16]
      else if c4 = 61 then
        some [b64val c1 * 4 + b64val c2 / 16, b64val c2 % 16 * 16 + b64val c3 / 4]
      else some (b64chunk c1 c2 c3 c4)
    else
      match b64decode rest with
      | some ds => some (b64chunk c1 c2 c3 c4 ++ ds)
      | none => none
  | _ => none

/-- `btoa`: defined exactly on strings whose code points are all ≤ 255
(Latin-1); on any other input the browser function throws, modelled here
as `none`. -/
def btoaQ (l : JSStr) : Option JSStr :=
  if ∀ u ∈ l, u ≤ 255 then some (b64encode l) else none

/-! ### JSON string escaping (`JSON.stringify`) -/

/-- Lowercase hexadecimal digit, as emitted in `\uXXXX` escapes. -/
def hexLower (n : Nat) : Nat := if n < 10 then 48 + n else 87 + n

/-- `JSON.stringify` escaping of one character: `"` and `\` are
backslash-escaped, the five named control escapes are used for 8, 9, 10,
12, 13, the remaining control characters become `\u00XX`, and every other
character is emitted verbatim. -/
def escChar (c : Nat) : List Nat :=
  if c = 34 then [92, 34]
  else if c = 92 then [92, 92]
  else if c = 8 then [92, 98]
  else if c = 9 then [92, 116]
  else if c = 10 then [92, 110]
  else if c = 12 then [92, 102]
  else if c = 13 then [92, 114]
  else if c < 32 then [92, 117, 48, 48, hexLower (c / 16), hexLower (c % 16)]
  else [c]

/-- `JSON.stringify` escaping of a whole string body. -/
def escapeStr : JSStr → JSStr
  | [] => []
  | c :: rest => escChar c ++ escapeStr rest

/-- A JSON string literal: quote, escaped body, quote. -/
def jsonQuote (s : JSStr) : JSStr := 34 :: (escapeStr s ++ [34])

/-- Numeric value of one hexadecimal digit character. -/
def hexValQ (c : Nat) : Option Nat :=
  if 48 ≤ c ∧ c ≤ 57 then some (c - 48)
  else if 97 ≤ c ∧ c ≤ 102 then some (c - 87)
  else if 65 ≤ c ∧ c ≤ 70 then some (c - 55)
  else none

/-- `o.map (fun p => (c :: p.1, p.2))`: prepend a decoded character. -/
def consMap (c : Nat) (o : Option (JSStr × JSStr)) : Option (JSStr × JSStr) :=
  o.map fun p => (c :: p.1, p.2)

/-- Parse the body of a JSON string up to and including the closing
quote, returning the decoded body and the remaining input. -/
def parseJsonStrAux : JSStr → Option (JSStr × JSStr)
  | [] => none
  | c :: rest =>
    if c = 34 then some ([], rest)
    else if c = 92 then
      match rest with
      | [] => none
      | e :: rest2 =>
        if e = 34 then consMap 34 (parseJsonStrAux rest2)
        else if e = 92 then consMap 92 (parseJsonStrAux rest2)
        else if e = 98 then consMap 8 (parseJsonStrAux rest2)
        else if e = 116 then consMap 9 (parseJsonStrAux rest2)
        else if e = 110 then consMap 10 (parseJsonStrAux rest2)
        else if e = 102 then consMap 12 (parseJsonStrAux rest2)
        else if e = 114 then consMap 13 (parseJsonStrAux rest2)
        else if e = 117 then
          match rest2 with
          | h1 :: h2 :: h3 :: h4 :: rest3 =>
            match hexValQ h1, hexValQ h2, hexValQ h3, hexValQ h4 with
            | some a, some b, some d, some e2 =>
              consMap (a * 4096 + b * 256 + d * 16 + e2) (parseJsonStrAux rest3)
            | _, _, _, _ => none
          | _ => none
        else none
    else consMap c (parseJsonStrAux rest)

/-- Parse one JSON string literal (opening quote, body, closing quote). -/
def parseJsonString : JSStr → Option (JSStr × JSStr)
  | [] => none
  | c :: rest => if c = 34 then parseJsonStrAux rest else none

/-! ### `encodeURIComponent` -/

/-- The characters `encodeURIComponent` leaves unescaped:
alphanumerics and `- _ . ! ~ * ' ( )`. -/
def isUnreservedURI (c : Nat) : Bool :=
  (decide (48 ≤ c) && decide (c ≤ 57)) ||
  (decide (65 ≤ c) && decide (c ≤ 90)) ||
  (decide (97 ≤ c) && decide (c ≤ 122)) ||
  c == 45 || c == 95 || c == 46 || c == 33 || c == 126 ||
  c == 42 || c == 39 || c == 40 || c == 41

/-- UTF-8 bytes of one code point. -/
def utf8Bytes (cp : Nat) : List Nat :=
  if cp < 128 then [cp]
  else if cp < 2048 then [192 + cp / 64, 128 + cp % 64]
  else if cp < 65536 then [224 + cp / 4096, 128 + cp / 64 % 64, 128 + cp % 64]
  else [240 + cp / 262144, 128 + cp / 4096 % 64, 128 + cp / 64 % 64, 128 + cp % 64]

/-- Uppercase hexadecimal digit, as emitted in percent-escapes. -/
def hexUpper (n : Nat) : Nat := if n < 10 then 48 + n else 55 + n

/-- Percent-escape a byte sequence (`%XX` with uppercase hex). -/
def pctBytes : List Nat → JSStr
  | [] => []
  | b :: rest => 37 :: hexUpper (b / 16) :: hexUpper (b % 16) :: pctBytes rest

/-- `encodeURIComponent` of one character. -/
def encChar (c : Nat) : JSStr :=
  if isUnreservedURI c then [c] else pctBytes (utf8Bytes c)

/-- `encodeURIComponent`. -/
def encodeURIComponent : JSStr → JSStr
  | [] => []
  | c :: rest => encChar c ++ encodeURIComponent rest

/-! ### The Share-Link codec (`createLiveEditorLink`, api.js lines 25-53) -/

/-- The `options` parameter of `createLiveEditorLink`: each key may be
absent (`undefined`), modelled as `none`. -/
structure EditorOptions where
  theme : Option JSStr
  primaryColor : Option JSStr
  primaryTextColor : Option JSStr
  primaryBorderColor : Option JSStr
  lineColor : Option JSStr
  secondaryColor : Option JSStr
  tertiaryColor : Option JSStr
deriving DecidableEq, Repr

/-- JavaScript `v || d` on option-of-string values: `undefined` and the
empty string are falsy, so both select the default. -/
def jsOr (v : Option JSStr) (d : JSStr) : JSStr :=
  match v with
  | none => d
  | some s => if s = [] then d else s

/-- The configuration object literal built by `createLiveEditorLink`
(api.js lines 27-42), after resolving every `options.x || default`. -/
structure MermaidConfig where
  code : JSStr
  theme : JSStr
  primaryColor : JSStr
  primaryTextColor : JSStr
  primaryBorderColor : JSStr
  lineColor : JSStr
  secondaryColor : JSStr
  tertiaryColor : JSStr
deriving DecidableEq, Repr

/-- api.js lines 27-42: the defaults of `createLiveEditorLink`. -/
def resolveConfig (code : JSStr) (o : EditorOptions) : MermaidConfig where
  code := code
  theme := jsOr o.theme (jstr "dark")
  primaryColor := jsOr o.primaryColor (jstr "#10b981")
  primaryTextColor := jsOr o.primaryTextColor (jstr "#f1f5f9")
  primaryBorderColor := jsOr o.primaryBorderColor (jstr "#059669")
  lineColor := jsOr o.lineColor (jstr "#64748b")
  secondaryColor := jsOr o.secondaryColor (jstr "#1e293b")
  tertiaryColor := jsOr o.tertiaryColor (jstr "#334155")

/-- `JSON.stringify(config)` for the object of api.js lines 27-42:
property order and separators exactly as `JSON.stringify` emits them. -/
def stringifyConfig (cfg : MermaidConfig) : JSStr :=
  jstr "\x7b\"code\":" ++ jsonQuote cfg.code ++
  jstr ",\"mermaid\":\x7b\"theme\":" ++ jsonQuote cfg.theme ++
  jstr ",\"themeVariables\":\x7b\"primaryColor\":" ++ jsonQuote cfg.primaryColor ++
  jstr ",\"primaryTextColor\":" ++ jsonQuote cfg.primaryTextColor ++
  jstr ",\"primaryBorderColor\":" ++ jsonQuote cfg.primaryBorderColor ++
  jstr ",\"lineColor\":" ++ jsonQuote cfg.lineColor ++
  jstr ",\"secondaryColor\":" ++ jsonQuote cfg.secondaryColor ++
  jstr ",\"tertiaryColor\":" ++ jsonQuote cfg.tertiaryColor ++
  jstr "\x7d\x7d,\"autoSync\":true,\"updateEditor\":false\x7d"

/-- api.js lines 25-53, `createLiveEditorLink`: serialize the config,
base64-encode it into a `#pako:` share link; when `btoa` throws
(non-Latin-1 input) the catch branch returns the
`encodeURIComponent` fallback link instead. -/
def createLiveEditorLink (code : JSStr) (o : EditorOptions) : JSStr :=
  match btoaQ (stringifyConfig (resolveConfig code o)) with
  | some tok => jstr "https://mermaid.live/edit#pako:" ++ tok
  | none => jstr "https://mermaid.live/edit#" ++ encodeURIComponent code

/-- The DiagramSpec of spec §3: raw text, theme and the six theme
variables packed by the codec. -/
structure DiagramSpec where
  rawText : JSStr
  theme : JSStr
  primaryColor : JSStr
  primaryTextColor : JSStr
  primaryBorderColor : JSStr
  lineColor : JSStr
  secondaryColor : JSStr
  tertiaryColor : JSStr
deriving DecidableEq, Repr

/-- The DiagramSpec a resolved configuration denotes. -/
def specOfConfig (cfg : MermaidConfig) : DiagramSpec :=
  ⟨cfg.code, cfg.theme, cfg.primaryColor, cfg.primaryTextColor,
   cfg.primaryBorderColor, cfg.lineColor, cfg.secondaryColor, cfg.tertiaryColor⟩

/-- Modelled from the spec: the fingerprint of §3 is a content hash of
`rawText + theme + themeVariables`; the hash is abstracted as the content
itself, so fingerprints are equal exactly when the hashed content is. -/
def fingerprint (s : DiagramSpec) : List JSStr :=
  [s.rawText, s.theme, s.primaryColor, s.primaryTextColor,
   s.primaryBorderColor, s.lineColor, s.secondaryColor, s.tertiaryColor]

/-- Modelled from the spec: the repository ships no decoder (decoding is
performed by the external mermaid.live service), so `decode` of §4.2 is
modelled as the reversal of the structured serialize-then-base64 packing:
base64-decode the token, then parse the JSON object that
`stringifyConfig` emits, field by field in its fixed shape.
`stepField` is one step: strip a fixed key literal, then read the
following JSON string value. -/
def stepField (lit : JSStr) (s : JSStr) : Option (JSStr × JSStr) :=
  (chopLead lit s).bind parseJsonString

/-- See `stepField`: the token decoder itself. -/
def decodeToken (tok : JSStr) : Option DiagramSpec :=
  (b64decode tok).bind fun j =>
  (stepField (jstr "\x7b\"code\":") j).bind fun p1 =>
  (stepField (jstr ",\"mermaid\":\x7b\"theme\":") p1.2).bind fun p2 =>
  (stepField (jstr ",\"themeVariables\":\x7b\"primaryColor\":") p2.2).bind fun p3 =>
  (stepField (jstr ",\"primaryTextColor\":") p3.2).bind fun p4 =>
  (stepField (jstr ",\"primaryBorderColor\":") p4.2).bind fun p5 =>
  (stepField (jstr ",\"lineColor\":") p5.2).bind fun p6 =>
  (stepField (jstr ",\"secondaryColor\":") p6.2).bind fun p7 =>
  (stepField (jstr ",\"tertiaryColor\":") p7.2).bind fun p8 =>
  (chopLead (jstr "\x7d\x7d,\"autoSync\":true,\"updateEditor\":false\x7d") p8.2).bind fun r9 =>
  if r9 = [] then
    some ⟨p1.1, p2.1, p3.1, p4.1, p5.1, p6.1, p7.1, p8.1⟩
  else none

/-- Modelled from the spec: decoding a full share URL means stripping the
`{liveEditorBase}/edit#pako:` frame of §6 and decoding the token. -/
def decodeShareURL (url : JSStr) : Option DiagramSpec :=
  match chopLead (jstr "https://mermaid.live/edit#pako:") url with
  | some tok => decodeToken tok
  | none => none

/-- Is the returned share URL the structured (`#pako:`) encoding?  This
is the discriminator a caller uses to detect the degraded fallback. -/
def hasPakoMarker (url : JSStr) : Bool :=
  (chopLead (jstr "https://mermaid.live/edit#pako:") url).isSome

/-! ### Download URLs (`createDownloadURLs`, api.js lines 192-214) -/

/-- The four-format result object of `createDownloadURLs`. -/
structure DownloadURLs where
  svg : JSStr
  png : JSStr
  pdf : JSStr
  jpeg : JSStr
deriving DecidableEq, Repr

/-- `JSON.stringify` of the smaller config of api.js lines 194-199
(`code` plus fixed theme `dark`). -/
def stringifyImgConfig (code : JSStr) : JSStr :=
  jstr "\x7b\"code\":" ++ jsonQuote code ++
  jstr ",\"mermaid\":\x7b\"theme\":\"dark\"\x7d\x7d"

/-- api.js lines 192-214, `createDownloadURLs`: one base64 token, one
base URL, four format query strings.  The catch branch (a `btoa` throw)
returns the empty object, modelled as `none`.  Pure string construction:
no network request is modelled because none is made. -/
def createDownloadURLs (code : JSStr) : Option DownloadURLs :=
  match btoaQ (stringifyImgConfig code) with
  | none => none
  | some tok =>
    some ⟨jstr "https://mermaid.live/img/" ++ tok ++ jstr "?format=svg",
          jstr "https://mermaid.live/img/" ++ tok ++ jstr "?format=png",
          jstr "https://mermaid.live/img/" ++ tok ++ jstr "?format=pdf",
          jstr "https://mermaid.live/img/" ++ tok ++ jstr "?format=jpeg"⟩

/-! ### The Mermaid text parser (`parseMermaidDiagram`, api.js lines 221-270) -/

/-- The `\w` character class: ASCII alphanumerics and underscore. -/
def isWordChar (c : Nat) : Bool :=
  (decide (48 ≤ c) && decide (c ≤ 57)) ||
  (decide (65 ≤ c) && decide (c ≤ 90)) ||
  (decide (97 ≤ c) && decide (c ≤ 122)) || c == 95

/-- The `[-=.]` character class of the arrow regex. -/
def isDashChar (c : Nat) : Bool := c == 45 || c == 61 || c == 46

/-- One attempt of `/(\w+)\s*[-=.]*>+\s*(\w+)/` anchored at the start of
`s`: a word run, optional spaces, optional dashes, at least one `>`,
optional spaces, a word run.  All five classes are pairwise disjoint, so
greedy maximal-munch matching is exact for this pattern. -/
def matchArrowAt (s : JSStr) : Option (JSStr × JSStr) :=
  let w1 := s.takeWhile isWordChar
  if w1 = [] then none
  else
    let r2 := ((s.dropWhile isWordChar).dropWhile isSpaceChar).dropWhile isDashChar
    let gts := r2.takeWhile fun c => c == 62
    if gts = [] then none
    else
      let w2 := ((r2.dropWhile fun c => c == 62).dropWhile isSpaceChar).takeWhile isWordChar
      if w2 = [] then none else some (w1, w2)

/-- `line.match(/(\w+)\s*[-=.]*>+\s*(\w+)/)`: the leftmost match, found
by attempting the anchored match at successive start positions. -/
def arrowMatch : JSStr → Option (JSStr × JSStr)
  | [] => none
  | c :: rest =>
    match matchArrowAt (c :: rest) with
    | some r => some r
    | none => arrowMatch rest

/-- One attempt of `/(\w+)\[([^\]]+)\]/` anchored at the start of `s`:
word run, `[`, non-`]` run, `]`.  Returns identifier, label and the
input remaining after the match. -/
def matchNodeAt (s : JSStr) : Option (JSStr × JSStr × JSStr) :=
  match s.takeWhile isWordChar with
  | [] => none
  | w =>
    match s.dropWhile isWordChar with
    | 91 :: r2 =>
      match r2.takeWhile (fun c => !(c == 93)) with
      | [] => none
      | lbl =>
        match r2.dropWhile (fun c => !(c == 93)) with
        | 93 :: r4 => some (w, lbl, r4)
        | _ => none
    | _ => none

/-- `line.matchAll(/(\w+)\[([^\]]+)\]/g)`: scan left to right; after a
match continue past it, after a failed attempt advance one position.
Every match consumes at least one character, so fuel `s.length` (spent
once per step of either kind) never runs out before the scan ends. -/
def collectNodesF : Nat → JSStr → List (JSStr × JSStr)
  | 0, _ => []
  | fuel + 1, s =>
    match matchNodeAt s with
    | some (id, lbl, rem) => (id, lbl) :: collectNodesF fuel rem
    | none =>
      match s with
      | [] => []
      | _ :: rest => collectNodesF fuel rest

/-- All `identifier[label]` matches of a line, in order. -/
def collectNodes (s : JSStr) : List (JSStr × JSStr) := collectNodesF s.length s

/-- One attempt of `/(\w+)\s*(?:\[|$)/` anchored at the start of `s`:
word run, optional spaces, then either a consumed `[` or the end of the
input (zero-width). -/
def matchSimpleAt (s : JSStr) : Option (JSStr × JSStr) :=
  match s.takeWhile isWordChar with
  | [] => none
  | w =>
    match (s.dropWhile isWordChar).dropWhile isSpaceChar with
    | [] => some (w, [])
    | 91 :: r3 => some (w, r3)
    | _ => none

/-- `line.matchAll(/(\w+)\s*(?:\[|$)/g)`, with the same fuel discipline
as `collectNodesF` (each match consumes the nonempty word run). -/
def collectSimpleF : Nat → JSStr → List JSStr
  | 0, _ => []
  | fuel + 1, s =>
    match matchSimpleAt s with
    | some (id, rem) => id :: collectSimpleF fuel rem
    | none =>
      match s with
      | [] => []
      | _ :: rest => collectSimpleF fuel rest

/-- All simple-node identifiers of a line, in order. -/
def collectSimple (s : JSStr) : List JSStr := collectSimpleF s.length s

/-- A parsed relationship: `{ from, to, type }` (api.js line 241; the
`type` field is always the literal string `connection`). -/
structure Connection where
  fromId : JSStr
  toId : JSStr
  type : JSStr
deriving DecidableEq, Repr

/-- The parser's result object. -/
structure ParseResult where
  components : List JSStr
  relationships : List Connection
deriving DecidableEq, Repr

/-- `Set.prototype.add` on an insertion-ordered list (JavaScript `Set`
iterates in insertion order, which `Array.from` preserves). -/
def setAdd (l : List JSStr) (x : JSStr) : List JSStr :=
  if x ∈ l then l else l ++ [x]

/-- api.js line 232: lines that are skipped after trimming. -/
def isSkippedLine (line : JSStr) : Bool :=
  line == [] || startsWithU (jstr "%") line || startsWithU (jstr "//") line ||
  startsWithU (jstr "graph") line || startsWithU (jstr "flowchart") line

/-- api.js line 237: the guard before the arrow regex runs. -/
def includesArrowTokens (line : JSStr) : Bool :=
  containsSub (jstr "-->") line || containsSub (jstr "---") line ||
  containsSub (jstr "-.-") line

/-- The relationships one line contributes (zero or one; api.js lines
237-243). -/
def lineConnections (line : JSStr) : List Connection :=
  if includesArrowTokens line then
    match arrowMatch line with
    | some (f, t) => [⟨f, t, jstr "connection"⟩]
    | none => []
  else []

/-- api.js line 256: identifiers never registered as components. -/
def excludedIds : List JSStr :=
  [jstr "graph", jstr "TD", jstr "LR", jstr "TB", jstr "RL"]

/-- The component names one line adds, in the order the two `matchAll`
loops visit them: bracketed labels first (lines 246-250), then simple
identifiers not in the excluded list (lines 253-259). -/
def lineComponentAdds (line : JSStr) : List JSStr :=
  (collectNodes line).map (fun p => p.2) ++
  (collectSimple line).filter fun id => decide (id ∉ excludedIds)

/-- The loop body of api.js lines 228-260 for one (already trimmed)
line. -/
def processLine (st : ParseResult) (line : JSStr) : ParseResult :=
  if isSkippedLine line then st
  else
    { components := (lineComponentAdds line).foldl setAdd st.components,
      relationships := st.relationships ++ lineConnections line }

/-- The trimmed lines the parser iterates over. -/
def linesOf (t : JSStr) : List JSStr := (splitOn10 t).map trimU

/-- api.js lines 221-270, `parseMermaidDiagram`.  Every operation of the
`try` body (split, trim, startsWith, includes, regex matching, Set.add,
Array.from) is total, so the `catch` branch — which would return
`{ components: [], relationships: [] }` — is unreachable and the model
is the `try` body itself. -/
def parseMermaidDiagram (t : JSStr) : ParseResult :=
  (linesOf t).foldl processLine ⟨[], []⟩

/-- The relationships one trimmed line contributes, skip check included:
used to state that connections appear in line order. -/
def lineContribRels (line : JSStr) : List Connection :=
  if isSkippedLine line then [] else lineConnections line

/-- Concatenation of per-line relationship contributions, in line
order. -/
def concatRels : List JSStr → List Connection
  | [] => []
  | l :: ls => lineContribRels l ++ concatRels ls

/-! ### The syntax validator (`validateMermaidSyntax`, api.js lines 78-114) -/

/-- api.js line 86: the recognized diagram-type keywords, with their
original (mixed) casing. -/
def validDiagramTypes : List JSStr :=
  [jstr "graph", jstr "flowchart", jstr "sequenceDiagram", jstr "classDiagram",
   jstr "stateDiagram", jstr "erDiagram", jstr "gantt", jstr "pie", jstr "gitgraph"]

/-- `mermaidCode.trim().split('\n')[0]` (api.js line 87). -/
def headLine (s : JSStr) : JSStr :=
  match splitOn10 (trimU s) with
  | [] => []
  | l :: _ => l

/-- api.js lines 78-114, `validateMermaidSyntax`.  The guard of line 81
rejects the empty string; the bracket-matching loop of lines 95-107 has
an empty body apart from `continue`, so it never changes the result and
the function returns the value of the first-line keyword test. -/
def validateMermaidSyntax (code : JSStr) : Bool :=
  if code = [] then false
  else
    validDiagramTypes.any fun ty => startsWithU ty (toLowerU (headLine code))

/-! ### Render-state behaviour (`EnhancedArchitectureDiagram.jsx`) -/

/-- The component-local state that `renderMermaidDiagram` mutates: the
`diagramError` flag (line 20) and the markup injected into the container
node `mermaidRef` (lines 66-83).  The component is taken as mounted, so
`mermaidRef.current` is present. -/
structure UIState where
  diagramError : Bool
  innerHTML : JSStr
deriving DecidableEq, Repr

/-- The discrete events driving the state, read off
`renderMermaidDiagram` (lines 49-85): `startRender` is the synchronous
prefix of a call (`setDiagramError(false)`, line 51) issued by the
`useEffect` of lines 24-28 or by the refresh button of line 245;
`resolveOk svg` is the `mermaid.render` promise resolving and line 69
writing the artifact; `resolveErr` is the catch branch of lines 71-84. -/
inductive RenderEvent where
  | startRender
  | resolveOk (svg : JSStr)
  | resolveErr
deriving DecidableEq, Repr

/-- The fixed error markup written by the catch branch (lines 75-82). -/
def errorMarkup : JSStr :=
  jstr "\n          <div class=\"flex items-center justify-center min-h-[200px] text-red-400\">\n            <div class=\"text-center\">\n              <p class=\"font-medium\">Error rendering diagram</p>\n              <p class=\"text-sm text-slate-500 mt-1\">Please try regenerating or use the external link</p>\n            </div>\n          </div>\n        "

/-- The effect of one event on the component state, translated from
`renderMermaidDiagram`: a resolving render writes its markup into the
container unconditionally — the code compares no fingerprint before the
write on line 69. -/
def applyRenderEvent (s : UIState) : RenderEvent → UIState
  | RenderEvent.startRender => { s with diagramError := false }
  | RenderEvent.resolveOk svg => { s with innerHTML := svg }
  | RenderEvent.resolveErr => { diagramError := true, innerHTML := errorMarkup }

/-- Run a sequence of events from a state. -/
def runRenderTrace (s : UIState) (es : List RenderEvent) : UIState :=
  es.foldl applyRenderEvent s

/-- How many render invocations an event itself issues: only
`startRender` (a call of `renderMermaidDiagram`) does; in particular the
catch branch issues none — there is no automatic retry. -/
def rendersIssued : RenderEvent → Nat
  | RenderEvent.startRender => 1
  | _ => 0

/-- The user-facing actions of the component's markup that matter for
the failure contract. -/
inductive UIAction where
  | refreshRender
  | openExternalEditor
  | copyCode
  | downloadSvg
deriving DecidableEq, Repr

/-- The always-present diagram controls (jsx lines 243-258): the refresh
button re-invoking `renderMermaidDiagram` and the external-editor
button. -/
def diagramControls : List UIAction :=
  [UIAction.refreshRender, UIAction.openExternalEditor]

/-- The error overlay (jsx lines 260-274): shown exactly when
`diagramError` is set, offering the external-editor action. -/
def errorOverlayActions (s : UIState) : List UIAction :=
  if s.diagramError then [UIAction.openExternalEditor] else []

/-- All failure-relevant actions visible in a state. -/
def uiActions (s : UIState) : List UIAction :=
  diagramControls ++ errorOverlayActions s

/-- The state before any render activity. -/
def initialUIState : UIState := { diagramError := false, innerHTML := [] }

/-- Concrete inputs used by the claim instances below. -/
def optsNone : EditorOptions := ⟨none, none, none, none, none, none, none⟩

def code0 : JSStr := jstr "graph TD\nA-->B"

def badSpecText : JSStr := [256]

def c3Input : JSStr := jstr "graph TD\nA[Web Server]-->B[Database]"

def c4Trace : List RenderEvent :=
  [RenderEvent.startRender, RenderEvent.startRender,
   RenderEvent.resolveOk (jstr "<svg>s2</svg>"),
   RenderEvent.resolveOk (jstr "<svg>s1</svg>")]

/-! ## Lemmas: prefix stripping -/

theorem chopLead_append (p r : JSStr) : chopLead p (p ++ r) = some r := by
  induction p with
  | nil => rfl
  | cons c ps ih => simp [chopLead, ih]

theorem chopLead_self (p : JSStr) : chopLead p p = some [] := by
  have h := chopLead_append p []
  simpa using h

theorem chopLead_left_cancel (a p s : JSStr) :
    chopLead (a ++ p) (a ++ s) = chopLead p s := by
  induction a with
  | nil => rfl
  | cons c cs ih => simp [chopLead, ih]

theorem chopLead_sound (p : JSStr) : ∀ s r, chopLead p s = some r → s = p ++ r := by
  induction p with
  | nil =>
    intro s r h
    simp only [chopLead, Option.some.injEq] at h
    simp [h]
  | cons c ps ih =>
    intro s r h
    cases s with
    | nil => simp [chopLead] at h
    | cons d ds =>
      simp only [chopLead] at h
      split at h
      · next hcd => simp [← hcd, ih ds r h]
      · exact absurd h (by simp)

/-! ## Lemmas: `encodeURIComponent` emits no colon -/

theorem hexUpper_ne_colon (n : Nat) : hexUpper n ≠ 58 := by
  unfold hexUpper; split <;> omega

theorem pct_no_colon (bs : List Nat) : 58 ∉ pctBytes bs := by
  induction bs with
  | nil => simp [pctBytes]
  | cons b rest ih =>
    simp only [pctBytes, List.mem_cons]
    intro h
    rcases h with h | h | h | h
    · exact absurd h (by decide)
    · exact hexUpper_ne_colon _ h.symm
    · exact hexUpper_ne_colon _ h.symm
    · exact ih h

theorem encChar_no_colon (c : Nat) : 58 ∉ encChar c := by
  unfold encChar
  split
  · next h =>
    intro hm
    simp only [List.mem_singleton] at hm
    rw [← hm] at h
    exact absurd h (by decide)
  · exact pct_no_colon _

theorem enc_no_colon (s : JSStr) : 58 ∉ encodeURIComponent s := by
  induction s with
  | nil => simp [encodeURIComponent]
  | cons c rest ih =>
    simp only [encodeURIComponent, List.mem_append]
    intro h
    rcases h with h | h
    · exact encChar_no_colon c h
    · exact ih h

/-! ## Lemmas: base64 round trip -/

theorem btoaChar_inv : ∀ n < 64, b64val (btoaChar n) = n ∧ ¬ btoaChar n = 61 := by decide

theorem b64encode_ne_nil : ∀ l : List Nat, l ≠ [] → b64encode l ≠ []
  | [], h => absurd rfl h
  | [_], _ => by simp [b64encode]
  | [_, _], _ => by simp [b64encode]
  | _ :: _ :: _ :: _, _ => by simp [b64encode]

theorem b64_roundtrip : ∀ l : List Nat, (∀ u ∈ l, u ≤ 255) → b64decode (b64encode l) = some l
  | [], _ => rfl
  | [a], h => by
    have ha : a ≤ 255 := h a (by simp)
    have h1 := btoaChar_inv (a / 4) (by omega)
    have h2 := btoaChar_inv (a % 4 * 16) (by omega)
    simp [b64encode, b64decode, h1.1, h2.1]
    omega
  | [a, b], h => by
    have ha : a ≤ 255 := h a (by simp)
    have hb : b ≤ 255 := h b (by simp)
    have h1 := btoaChar_inv (a / 4) (by omega)
    have h2 := btoaChar_inv (a % 4 * 16 + b / 16) (by omega)
    have h3 := btoaChar_inv (b % 16 * 4) (by omega)
    simp [b64encode, b64decode, h1.1, h2.1, h3.1, h3.2]
    constructor <;> omega
  | a :: b :: c :: rest, h => by
    have ha : a ≤ 255 := h a (by simp)
    have hb : b ≤ 255 := h b (by simp)
    have hc : c ≤ 255 := h c (by simp)
    have h1 := btoaChar_inv (a / 4) (by omega)
    have h2 := btoaChar_inv (a % 4 * 16 + b / 16) (by omega)
    have h3 := btoaChar_inv (b % 16 * 4 + c / 64) (by omega)
    have h4 := btoaChar_inv (c % 64) (by omega)
    by_cases hr : rest = []
    · subst hr
      simp [b64encode, b64decode, b64chunk, h1.1, h2.1, h3.1, h4.1, h3.2, h4.2]
      refine ⟨by omega, by omega, by omega⟩
    · have ih := b64_roundtrip rest fun u hu => h u (by simp [hu])
      have hne := b64encode_ne_nil rest hr
      simp only [b64encode, b64decode]
      rw [if_neg hne, ih]
      simp [b64chunk, h1.1, h2.1, h3.1, h4.1]
      refine ⟨by omega, by omega, by omega⟩

/-! ## Lemmas: JSON string escaping round trip -/

theorem hexValQ_hexLower : ∀ m < 16, hexValQ (hexLower m) = some m := by decide

theorem parseEscChar (c : Nat) (X : JSStr) :
    parseJsonStrAux (escChar c ++ X) = consMap c (parseJsonStrAux X) := by
  by_cases h34 : c = 34
  · subst h34; simp [escChar]; rw [parseJsonStrAux.eq_def]; simp
  · by_cases h92 : c = 92
    · subst h92; simp [escChar]; rw [parseJsonStrAux.eq_def]; simp
    · by_cases h8 : c = 8
      · subst h8; simp [escChar]; rw [parseJsonStrAux.eq_def]; simp
      · by_cases h9 : c = 9
        · subst h9; simp [escChar]; rw [parseJsonStrAux.eq_def]; simp
        · by_cases h10 : c = 10
          · subst h10; simp [escChar]; rw [parseJsonStrAux.eq_def]; simp
          · by_cases h12 : c = 12
            · subst h12; simp [escChar]; rw [parseJsonStrAux.eq_def]; simp
            · by_cases h13 : c = 13
              · subst h13; simp [escChar]; rw [parseJsonStrAux.eq_def]; simp
              · by_cases hlt : c < 32
                · have e1 := hexValQ_hexLower (c / 16) (by omega)
                  have e2 := hexValQ_hexLower (c % 16) (by omega)
                  have hc : c / 16 * 16 + c % 16 = c := by omega
                  have he : escChar c = [92, 117, 48, 48, hexLower (c / 16), hexLower (c % 16)] := by
                    unfold escChar
                    rw [if_neg h34, if_neg h92, if_neg h8, if_neg h9, if_neg h10,
                        if_neg h12, if_neg h13, if_pos hlt]
                  rw [he]
                  show parseJsonStrAux
                    (92 :: 117 :: 48 :: 48 :: hexLower (c / 16) :: hexLower (c % 16) :: X) = _
                  rw [parseJsonStrAux.eq_def]
                  simp [e1, e2, hc, show hexValQ 48 = some 0 from rfl]
                · have he : escChar c = [c] := by
                    unfold escChar
                    rw [if_neg h34, if_neg h92, if_neg h8, if_neg h9, if_neg h10,
                        if_neg h12, if_neg h13, if_neg hlt]
                  rw [he]
                  show parseJsonStrAux (c :: X) = _
                  rw [parseJsonStrAux.eq_def]
                  simp [h34, h92]

theorem parseEsc (f : JSStr) : ∀ rest, parseJsonStrAux (escapeStr f ++ 34 :: rest) = some (f, rest) := by
  induction f with
  | nil =>
    intro rest
    show parseJsonStrAux (34 :: rest) = some ([], rest)
    rw [parseJsonStrAux.eq_def]
    simp
  | cons c f ih =>
    intro rest
    simp only [escapeStr, List.append_assoc]
    rw [parseEscChar, ih]
    simp [consMap]

theorem parseJsonString_quote (f rest : JSStr) :
    parseJsonString (jsonQuote f ++ rest) = some (f, rest) := by
  have h := parseEsc f rest
  simp [jsonQuote, parseJsonString, List.append_assoc, h]

theorem stepField_emit (lit f rest : JSStr) :
    stepField lit (lit ++ (jsonQuote f ++ rest)) = some (f, rest) := by
  simp [stepField, chopLead_append, parseJsonString_quote]

/-! ## Lemmas: token decode inverts `stringifyConfig` -/

theorem decodeToken_stringify (cfg : MermaidConfig)
    (h : ∀ u ∈ stringifyConfig cfg, u ≤ 255) :
    decodeToken (b64encode (stringifyConfig cfg)) = some (specOfConfig cfg) := by
  unfold decodeToken
  rw [b64_roundtrip _ h]
  simp only [Option.some_bind]
  simp only [stringifyConfig, List.append_assoc]
  rw [stepField_emit]
  simp only [Option.some_bind]
  rw [stepField_emit]
  simp only [Option.some_bind]
  rw [stepField_emit]
  simp only [Option.some_bind]
  rw [stepField_emit]
  simp only [Option.some_bind]
  rw [stepField_emit]
  simp only [Option.some_bind]
  rw [stepField_emit]
  simp only [Option.some_bind]
  rw [stepField_emit]
  simp only [Option.some_bind]
  rw [stepField_emit]
  simp only [Option.some_bind]
  rw [chopLead_self]
  simp [specOfConfig]

/-! ## Lemmas: the two branches of `createLiveEditorLink` -/

theorem createLiveEditorLink_pako (code : JSStr) (o : EditorOptions) (tok : JSStr)
    (h : btoaQ (stringifyConfig (resolveConfig code o)) = some tok) :
    createLiveEditorLink code o = jstr "https://mermaid.live/edit#pako:" ++ tok := by
  unfold createLiveEditorLink
  rw [h]

theorem createLiveEditorLink_fallback (code : JSStr) (o : EditorOptions)
    (h : btoaQ (stringifyConfig (resolveConfig code o)) = none) :
    createLiveEditorLink code o = jstr "https://mermaid.live/edit#" ++ encodeURIComponent code := by
  unfold createLiveEditorLink
  rw [h]

/-! ## Claim C1 -/

/-- Claim C1, amended.  The claim quantifies over every DiagramSpec; as
stated it fails for raw text containing a code point above 255 (see the
counterexample), because there `btoa` throws and `createLiveEditorLink`
takes the fallback branch.  Amended: for every raw text and options
whose resolved, serialized configuration consists of code points ≤ 255
(the `btoa` precondition), decoding the share token produced by
`createLiveEditorLink` succeeds and reproduces the raw text exactly,
together with the resolved theme and theme variables, hence an identical
fingerprint. -/
theorem c1_round_trip (code : JSStr) (o : EditorOptions)
    (h : ∀ u ∈ stringifyConfig (resolveConfig code o), u ≤ 255) :
    ∃ s : DiagramSpec,
      decodeShareURL (createLiveEditorLink code o) = some s ∧
      s.rawText = code ∧
      s.theme = (resolveConfig code o).theme ∧
      fingerprint s = fingerprint (specOfConfig (resolveConfig code o)) := by
  refine ⟨specOfConfig (resolveConfig code o), ?_, rfl, rfl, rfl⟩
  have hb : btoaQ (stringifyConfig (resolveConfig code o)) =
      some (b64encode (stringifyConfig (resolveConfig code o))) := by
    unfold btoaQ
    rw [if_pos h]
  rw [createLiveEditorLink_pako code o _ hb]
  unfold decodeShareURL
  rw [chopLead_append]
  exact decodeToken_stringify _ h

/-- Witness for C1 at a concrete diagram: the default options and the
raw text `graph TD\nA-->B` of spec §8 Scenario 3. -/
theorem c1_round_trip_witness :
    ∃ s : DiagramSpec,
      decodeShareURL (createLiveEditorLink code0 optsNone) = some s ∧
      s.rawText = code0 ∧
      s.theme = (resolveConfig code0 optsNone).theme ∧
      fingerprint s = fingerprint (specOfConfig (resolveConfig code0 optsNone)) :=
  c1_round_trip code0 optsNone (by decide)

/-- Counterexample to C1 as stated: for the one-character raw text
`[256]` (the first code point outside Latin-1) the encoder takes the
`encodeURIComponent` fallback branch and the produced link carries no
decodable structured token at all, so `decode (encode s)` does not yield
a spec with `s`'s fingerprint. -/
theorem c1_counterexample :
    createLiveEditorLink badSpecText optsNone =
      jstr "https://mermaid.live/edit#" ++ encodeURIComponent badSpecText ∧
    decodeShareURL (createLiveEditorLink badSpecText optsNone) = none := by
  constructor
  · decide
  · decide

/-! ## Claim C5 -/

/-- Claim C5: if the structured encoding fails (`btoa` rejects the
serialized config), `createLiveEditorLink` returns the best-effort
single-value encoding of just the raw text instead of raising, and the
caller can detect which fallback occurred from the returned value: the
structured branch always carries the `#pako:` marker and the fallback
branch never does (its fragment is colon-free). -/
theorem c5_encode_fallback (code : JSStr) (o : EditorOptions) :
    (btoaQ (stringifyConfig (resolveConfig code o)) = none →
      createLiveEditorLink code o =
        jstr "https://mermaid.live/edit#" ++ encodeURIComponent code ∧
      hasPakoMarker (createLiveEditorLink code o) = false) ∧
    ∀ tok, btoaQ (stringifyConfig (resolveConfig code o)) = some tok →
      hasPakoMarker (createLiveEditorLink code o) = true := by
  constructor
  · intro hn
    have hf := createLiveEditorLink_fallback code o hn
    refine ⟨hf, ?_⟩
    rw [hf]
    unfold hasPakoMarker
    have hsplit : jstr "https://mermaid.live/edit#pako:" =
        jstr "https://mermaid.live/edit#" ++ jstr "pako:" := by decide
    rw [hsplit, chopLead_left_cancel]
    cases hcl : chopLead (jstr "pako:") (encodeURIComponent code) with
    | none => rfl
    | some r =>
      exfalso
      have hs := chopLead_sound _ _ _ hcl
      have h58 : (58 : Nat) ∈ encodeURIComponent code := by
        rw [hs]
        exact List.mem_append_left _ (by decide)
      exact enc_no_colon code h58
  · intro tok ht
    rw [createLiveEditorLink_pako code o tok ht]
    unfold hasPakoMarker
    rw [chopLead_append]
    rfl

/-- Witness for C5: the raw text `[256]` makes `btoa` throw, the
fallback URL is returned and it carries no `pako:` marker. -/
theorem c5_encode_fallback_witness :
    createLiveEditorLink badSpecText optsNone =
      jstr "https://mermaid.live/edit#" ++ encodeURIComponent badSpecText ∧
    hasPakoMarker (createLiveEditorLink badSpecText optsNone) = false :=
  (c5_encode_fallback badSpecText optsNone).1 (by decide)

/-! ## Claim C6 -/

/-- Claim C6: whenever `createDownloadURLs` returns URLs (the serialized
config is Latin-1, so `btoa` does not throw), all four of them share one
base — the identical encoded token — and differ only in the
`?format=` discriminator.  The function is pure string construction. -/
theorem c6_download_urls (code : JSStr) (h : ∀ u ∈ stringifyImgConfig code, u ≤ 255) :
    ∃ base : JSStr,
      createDownloadURLs code = some
        ⟨base ++ jstr "?format=svg", base ++ jstr "?format=png",
         base ++ jstr "?format=pdf", base ++ jstr "?format=jpeg"⟩ := by
  refine ⟨jstr "https://mermaid.live/img/" ++ b64encode (stringifyImgConfig code), ?_⟩
  unfold createDownloadURLs btoaQ
  rw [if_pos h]

/-- Witness for C6 at the concrete diagram text `graph TD\nA-->B`. -/
theorem c6_download_urls_witness :
    ∃ base : JSStr,
      createDownloadURLs code0 = some
        ⟨base ++ jstr "?format=svg", base ++ jstr "?format=png",
         base ++ jstr "?format=pdf", base ++ jstr "?format=jpeg"⟩ :=
  c6_download_urls code0 (by decide)

/-! ## Claim C10 -/

theorem mem_escapeStr (u : Nat) (hge : 32 ≤ u) (h34 : u ≠ 34) (h92 : u ≠ 92) :
    ∀ f : JSStr, u ∈ f → u ∈ escapeStr f := by
  intro f
  induction f with
  | nil => simp
  | cons c rest ih =>
    intro hm
    simp only [escapeStr, List.mem_append]
    rcases List.mem_cons.mp hm with h | h
    · left
      subst h
      have he : escChar u = [u] := by
        unfold escChar
        rw [if_neg h34, if_neg h92, if_neg (by omega), if_neg (by omega),
            if_neg (by omega), if_neg (by omega), if_neg (by omega), if_neg (by omega)]
      rw [he]
      simp
    · right
      exact ih h

/-- Claim C10: any raw text containing a code point above 255 makes the
base64 step throw, so `createLiveEditorLink` returns the fallback URL
built from `encodeURIComponent` of the raw code after the plain `#`,
with no `pako:` marker anywhere in the fragment (the fragment contains
no colon at all). -/
theorem c10_nonlatin1_fallback (code : JSStr) (o : EditorOptions)
    (h : ∃ u ∈ code, 255 < u) :
    createLiveEditorLink code o =
      jstr "https://mermaid.live/edit#" ++ encodeURIComponent code ∧
    58 ∉ encodeURIComponent code ∧
    ¬ List.IsInfix (jstr "pako:") (encodeURIComponent code) := by
  obtain ⟨u, hu, h255⟩ := h
  have h1 : u ∈ escapeStr code :=
    mem_escapeStr u (by omega) (by omega) (by omega) code hu
  have h2 : u ∈ jsonQuote code := by
    simp only [jsonQuote, List.mem_cons, List.mem_append]
    exact Or.inr (Or.inl h1)
  have hmem : u ∈ stringifyConfig (resolveConfig code o) := by
    simp only [stringifyConfig, List.mem_append]
    tauto
  have hnot : ¬ ∀ v ∈ stringifyConfig (resolveConfig code o), v ≤ 255 :=
    fun hall => absurd (hall u hmem) (by omega)
  have hnone : btoaQ (stringifyConfig (resolveConfig code o)) = none := by
    unfold btoaQ
    rw [if_neg hnot]
  refine ⟨createLiveEditorLink_fallback code o hnone, enc_no_colon code, ?_⟩
  intro hinf
  obtain ⟨s, t, hst⟩ := hinf
  have h58 : (58 : Nat) ∈ s ++ jstr "pako:" ++ t :=
    List.mem_append_left _ (List.mem_append_right s (by decide))
  rw [hst] at h58
  exact enc_no_colon code h58

/-- Witness for C10 at the one-character raw text `[256]`. -/
theorem c10_nonlatin1_fallback_witness :
    createLiveEditorLink badSpecText optsNone =
      jstr "https://mermaid.live/edit#" ++ encodeURIComponent badSpecText ∧
    58 ∉ encodeURIComponent badSpecText ∧
    ¬ List.IsInfix (jstr "pako:") (encodeURIComponent badSpecText) :=
  c10_nonlatin1_fallback badSpecText optsNone ⟨256, by decide, by decide⟩

/-! ## Lemmas: parser structure -/

theorem processLine_rels (st : ParseResult) (line : JSStr) :
    (processLine st line).relationships = st.relationships ++ lineContribRels line := by
  unfold processLine lineContribRels
  split
  · simp
  · rfl

theorem foldl_processLine_rels : ∀ (ls : List JSStr) (st : ParseResult),
    (ls.foldl processLine st).relationships = st.relationships ++ concatRels ls := by
  intro ls
  induction ls with
  | nil => intro st; simp [concatRels]
  | cons l ls ih =>
    intro st
    simp only [List.foldl_cons, concatRels]
    rw [ih, processLine_rels, List.append_assoc]

theorem setAdd_nodup (l : List JSStr) (x : JSStr) (h : l.Nodup) : (setAdd l x).Nodup := by
  unfold setAdd
  split
  · exact h
  · next hx => simp [List.nodup_append, h, hx]

theorem foldl_setAdd_nodup : ∀ (adds l : List JSStr), l.Nodup → (adds.foldl setAdd l).Nodup := by
  intro adds
  induction adds with
  | nil => intro l h; exact h
  | cons a adds ih => intro l h; exact ih _ (setAdd_nodup l a h)

theorem processLine_nodup (st : ParseResult) (line : JSStr) (h : st.components.Nodup) :
    (processLine st line).components.Nodup := by
  unfold processLine
  split
  · exact h
  · exact foldl_setAdd_nodup _ _ h

theorem foldl_processLine_nodup : ∀ (ls : List JSStr) (st : ParseResult),
    st.components.Nodup → (ls.foldl processLine st).components.Nodup := by
  intro ls
  induction ls with
  | nil => intro st h; exact h
  | cons l ls ih => intro st h; exact ih _ (processLine_nodup st l h)

/-! ## Claim C2 -/

/-- Claim C2: `parseMermaidDiagram` is total — for every input string it
returns a result object with a components list and a relationships list.
In this embedding every operation of the `try` body is a total function,
which is the formal counterpart of the body never throwing (the `catch`
branch returning `{components: [], relationships: []}` is therefore
dead).  The conjuncts instantiate the edge cases the claim names: the
empty string, a string with an unbalanced bracket, and binary garbage
(a NUL, a Latin-1 byte and the largest code point). -/
theorem c2_parse_total :
    (∀ t : JSStr, ∃ cs rs, parseMermaidDiagram t = ⟨cs, rs⟩) ∧
    parseMermaidDiagram (jstr "") = ⟨[], []⟩ ∧
    parseMermaidDiagram (jstr "A[unclosed") = ⟨[jstr "A", jstr "unclosed"], []⟩ ∧
    parseMermaidDiagram [0, 255, 1114111] = ⟨[], []⟩ := by
  refine ⟨fun t => ⟨(parseMermaidDiagram t).components,
    (parseMermaidDiagram t).relationships, rfl⟩, by decide, by decide, by decide⟩

/-! ## Claim C3 -/

/-- Counterexample to C3 as stated: on
`graph TD\nA[Web Server]-->B[Database]` the parser extracts **no**
connection at all — the arrow regex `(\w+)\s*[-=.]*>+\s*(\w+)` cannot
match because `]` stands immediately before `-->` — and the component
set also contains the bare identifier `A` (registered by the
simple-node pattern `(\w+)\s*(?:\[|$)`), which is not one of the two
claimed labels. -/
theorem c3_counterexample :
    (parseMermaidDiagram c3Input).relationships = [] ∧
    jstr "A" ∈ (parseMermaidDiagram c3Input).components := by
  exact ⟨by decide, by decide⟩

/-- Claim C3, amended: parsing `graph TD\nA[Web Server]-->B[Database]`
yields the component list `["Web Server", "Database", "A", "B"]` — the
two bracketed labels followed by the two node identifiers — and no
connections. -/
theorem c3_amended :
    parseMermaidDiagram c3Input =
      ⟨[jstr "Web Server", jstr "Database", jstr "A", jstr "B"], []⟩ := by
  decide

/-! ## Claim C8 -/

/-- Claim C8: for every input text, the parser's component list has no
duplicates (`Set` semantics collapse duplicate labels to a single
entry), and the relationship sequence is exactly the concatenation, in
input line order, of each line's extracted connections — the order in
which edge lines appear is preserved. -/
theorem c8_components_nodup_connections_order (t : JSStr) :
    (parseMermaidDiagram t).components.Nodup ∧
    (parseMermaidDiagram t).relationships = concatRels (linesOf t) := by
  unfold parseMermaidDiagram
  constructor
  · exact foldl_processLine_nodup _ _ List.nodup_nil
  · simpa using foldl_processLine_rels (linesOf t) ⟨[], []⟩

/-! ## Claim C9 -/

/-- Claim C9 is wrong about the code, and the code is wrong about its
own keyword list (code bug): `validateMermaidSyntax` lowercases the
first line but compares it against the mixed-case entries of
`validDiagramTypes`, so the keywords containing an uppercase letter can
never match.  `sequenceDiagram` — listed on api.js line 86 — is
rejected, refuting the claimed iff.  The second half of the claim holds:
the bracket loop never rejects, so a later line with unbalanced brackets
does not affect the result (last conjunct). -/
theorem c9_sequence_diagram_rejected :
    validateMermaidSyntax (jstr "sequenceDiagram") = false ∧
    jstr "sequenceDiagram" ∈ validDiagramTypes ∧
    startsWithU (toLowerU (jstr "sequenceDiagram"))
      (toLowerU (headLine (jstr "sequenceDiagram"))) = true ∧
    validateMermaidSyntax (jstr "graph TD\nA[unbalanced") = true := by
  exact ⟨by decide, by decide, by decide, by decide⟩

/-! ## Claim C4 -/

/-- Counterexample to C4 as stated: in the trace
"submit s1, submit s2, s2's render resolves, s1's render resolves",
the displayed markup ends as s1's artifact, not s2's — the code performs
no fingerprint comparison before writing the resolved artifact into the
container, so a late-resolving superseded render does overwrite the
newer state. -/
theorem c4_counterexample :
    (runRenderTrace initialUIState c4Trace).innerHTML = jstr "<svg>s1</svg>" ∧
    jstr "<svg>s1</svg>" ≠ jstr "<svg>s2</svg>" := by
  exact ⟨by decide, by decide⟩

/-- Claim C4, amended: the controller is last-resolved-wins, not
last-submitted-fingerprint-wins — after any event history, a trace
ending with a render resolution displays that resolution's artifact,
whether or not its submission was superseded. -/
theorem c4_last_resolved_wins (s : UIState) (pre : List RenderEvent) (svg : JSStr) :
    (runRenderTrace s (pre ++ [RenderEvent.resolveOk svg])).innerHTML = svg := by
  unfold runRenderTrace
  rw [List.foldl_append]
  rfl

/-! ## Claim C7 -/

/-- Claim C7: when a render attempt fails, from any state the component
enters the error state (`diagramError = true`) showing the fixed error
markup (the `Failed` surface with its reason text), the failure itself
issues no new render (no automatic retry — retry is the caller-initiated
refresh action), and the resulting UI offers both the explicit retry
action and the external-editor link. -/
theorem c7_failure_behavior (s : UIState) :
    (applyRenderEvent s RenderEvent.resolveErr).diagramError = true ∧
    (applyRenderEvent s RenderEvent.resolveErr).innerHTML = errorMarkup ∧
    rendersIssued RenderEvent.resolveErr = 0 ∧
    UIAction.openExternalEditor ∈ uiActions (applyRenderEvent s RenderEvent.resolveErr) ∧
    UIAction.refreshRender ∈ uiActions (applyRenderEvent s RenderEvent.resolveErr) := by
  refine ⟨rfl, rfl, rfl, ?_, ?_⟩
  · show UIAction.openExternalEditor ∈ uiActions ⟨true, errorMarkup⟩
    decide
  · show UIAction.refreshRender ∈ uiActions ⟨true, errorMarkup⟩
    decide

end TFC
